import Mathlib

/-!
# To-do list client (`static/script.js`): a shallow embedding

The browser client keeps its state in module-level variables (`authToken`,
`currentUsername`, `currentListId`, `allLists`, `allTasks`, `myChart`,
`socket`).  Every handler of the script is embedded as a function on a record
`Client` holding these variables, extended with three logs that make the
effects of the script observable:

* `requests` : the HTTP requests handed to `fetch`, in the order of the calls;
* `pending`  : the continuations waiting behind an `await fetch(...)`;
* `emitted`  : the calls of `socket.emit`, in order.

An `async` function is split at its `await`: the part before it issues the
request and registers the continuation, the part after it runs when the
response for that request is delivered (`resolve`).

Left out, as they touch none of the variables above: the sound and video
helpers, `updateDateTime`, the styling done by the handlers, the confirmation
and edit modals (an event below is the confirmed action), and `login` /
`register` (the page is modelled from `DOMContentLoaded` with the credentials
found in `localStorage`).
-/

namespace TodoClient

/-! ## Data -/

/-- A task object as delivered by `GET /lists/{id}/tasks`. -/
structure Task where
  id : Nat
  text : String
  priority : String
  due_date : Option String
  completed : Bool
  position : Nat
deriving DecidableEq, Repr

/-- A list object as delivered by `GET /lists`. -/
structure TodoList where
  id : Nat
  name : String
deriving DecidableEq, Repr

/-- The two views toggled by `showView`: `'auth-view'` and `'app-view'`. -/
inductive View where
  | authView
  | appView
deriving DecidableEq, Repr

/-- A call `socket.emit(event, { list_id })`. -/
inductive Emit where
  | leave_list (list_id : Nat)
  | join_list (list_id : Nat)
deriving DecidableEq, Repr

/-- The body of a task mutation (`JSON.stringify(...)` argument). -/
inductive TaskData where
  | completedOnly (completed : Bool)
  | fields (text : String) (priority : String) (due_date : Option String)
deriving DecidableEq, Repr

/-- A JSON value as far as the script tells values apart: the result of
`await response.json()`, and what `allTasks` and `allLists` can hold. -/
inductive Body where
  /-- An array of task objects. -/
  | tasks (ts : List Task)
  /-- An array of list objects (objects with `id` and `name` only). -/
  | lists (ls : List TodoList)
  /-- An object with the fields of a task mutation; not an array. -/
  | taskData (d : TaskData)
  /-- No JSON body: `response.json()` rejects, which ends the function awaiting it. -/
  | empty
deriving DecidableEq, Repr

/-- The requests the script hands to `fetch`.  The field `token` is the
`x-access-token` header produced by `getAuthHeaders()` at the time of the call;
a list id is `none` when the interpolated `currentListId` is `null`. -/
inductive Request where
  /-- The call `GET /lists`. -/
  | getLists (token : Option String)
  /-- The call `POST /lists` with body `{ name }`. -/
  | postList (token : Option String) (name : String)
  /-- The call `DELETE /lists/${listId}`. -/
  | deleteList (token : Option String) (listId : Nat)
  /-- The call `GET /lists/${listId}/tasks`. -/
  | getTasks (token : Option String) (listId : Option Nat)
  /-- The call `POST /lists/${listId}/tasks` with body `JSON.stringify(taskData)`. -/
  | postTask (token : Option String) (listId : Option Nat) (data : Body)
  /-- The call `POST /parse-task` with body `{ text }`. -/
  | parseTask (token : Option String) (text : String)
  /-- The call `PUT /tasks/${taskId}`. -/
  | putTask (token : Option String) (taskId : Nat) (data : TaskData)
  /-- The call `DELETE /tasks/${taskId}`. -/
  | deleteTask (token : Option String) (taskId : Nat)
  /-- The call `PUT /tasks/reorder` with body `{ list_id, task_ids }`. -/
  | putReorder (token : Option String) (list_id : Option Nat) (task_ids : List String)
deriving DecidableEq, Repr

/-- An HTTP response: status code and JSON body. -/
structure Response where
  status : Nat
  body : Body
deriving DecidableEq, Repr

/-- The Fetch API flag `response.ok`: the status is in the range 200..299. -/
def Response.ok (r : Response) : Bool :=
  decide (200 ≤ r.status) && decide (r.status ≤ 299)

/-- What runs after an `await fetch(...)`, one constructor per `async` function
of the script.  `dropped` is a `fetch` whose promise the script never awaits
(the reorder call of `initSortable`). -/
inductive Cont where
  | fetchLists
  | createList
  | fetchTasks
  | addTask
  | parseAndAddTask (listId : Option Nat) (taskText : String)
  | toggleTaskCompletion
  | updateTask
  | deleteTask
  | deleteList
  | dropped
deriving DecidableEq, Repr

/-- A value stored in the `priorityCounts` object of `updateDashboard`:
a number, or a truthy value that is not a number (a function inherited from
`Object.prototype`, or the string obtained by adding `1` to one). -/
inductive JsVal where
  | num (n : Nat)
  | other
deriving DecidableEq, Repr

/-- An `li.task-item` element of `#task-list`: its `data-id` and
`data-position` attributes (strings, as `dataset` stores them). -/
structure TaskElement where
  dataset_id : String
  dataset_position : String
deriving DecidableEq, Repr

/-- The module-level variables of the script together with the effect logs. -/
structure Client where
  /-- The entry `localStorage['authToken']`. -/
  storedAuthToken : Option String
  /-- The entry `localStorage['currentUsername']`. -/
  storedUsername : Option String
  authToken : Option String
  currentUsername : Option String
  currentListId : Option Nat
  allLists : Body
  allTasks : Body
  /-- The `data` array of the doughnut chart held in `myChart`. -/
  myChart : Option (List JsVal)
  /-- Whether `socket` is non-null. -/
  socket : Bool
  /-- Whether `socket.disconnect()` has not been called on the socket. -/
  socketOpen : Bool
  view : View
  emitted : List Emit
  requests : List Request
  /-- Continuations in flight, keyed by the index of their request in `requests`. -/
  pending : List (Nat × Cont)
deriving DecidableEq, Repr

/-! ## JavaScript truthiness -/

/-- Truthiness of a list id held in `currentListId`: `null` and `0` are falsy. -/
def truthyId : Option Nat → Bool
  | none => false
  | some n => n != 0

/-- Truthiness of a string-or-null value: `null` and `''` are falsy. -/
def truthyStr : Option String → Bool
  | none => false
  | some s => s != ""

/-! ## `updateDashboard` -/

/-- Property names every object inherits from `Object.prototype`. -/
def protoKeys : List String :=
  ["constructor", "__defineGetter__", "__defineSetter__", "hasOwnProperty",
   "__lookupGetter__", "__lookupSetter__", "isPrototypeOf", "propertyIsEnumerable",
   "toString", "valueOf", "__proto__", "toLocaleString"]

/-- Property read `acc[k]` on an object created by `{}` with own properties `acc`:
`none` is `undefined`. -/
def objGet (acc : List (String × JsVal)) (k : String) : Option JsVal :=
  match acc.lookup k with
  | some v => some v
  | none => if k ∈ protoKeys then some JsVal.other else none

/-- Property write `acc[k] = v`.  The inherited setter of `__proto__` ignores a
value that is neither an object nor `null`. -/
def objSet (acc : List (String × JsVal)) (k : String) (v : JsVal) : List (String × JsVal) :=
  if k = "__proto__" then acc
  else (k, v) :: acc.filter (fun p => p.1 != k)

/-- The expression `(x || 0) + 1`. -/
def orZeroPlusOne : Option JsVal → JsVal
  | none => JsVal.num 1
  | some (JsVal.num n) => JsVal.num (n + 1)
  | some JsVal.other => JsVal.other

/-- The expression `x || 0`. -/
def orZero : Option JsVal → JsVal
  | none => JsVal.num 0
  | some v => v

/-- The reducer of `updateDashboard`:
`acc[task.priority] = (acc[task.priority] || 0) + 1; return acc`. -/
def countStep (acc : List (String × JsVal)) (task : Task) : List (String × JsVal) :=
  objSet acc task.priority (orZeroPlusOne (objGet acc task.priority))

/-- The object `priorityCounts = allTasks.reduce(..., {})`. -/
def priorityCounts (allTasks : List Task) : List (String × JsVal) :=
  allTasks.foldl countStep []

/-- The `data` array of the chart built by `updateDashboard`, for the labels
`['High', 'Medium', 'Low']`. -/
def chartData (allTasks : List Task) : List JsVal :=
  let pc := priorityCounts allTasks
  [orZero (objGet pc "High"), orZero (objGet pc "Medium"), orZero (objGet pc "Low")]

/-- The reducer of `updateDashboard` on an array element without a `priority`
field: the key is `undefined`, that is the property `'undefined'`. -/
def countUndefined (acc : List (String × JsVal)) : List (String × JsVal) :=
  objSet acc "undefined" (orZeroPlusOne (objGet acc "undefined"))

/-- The `data` array read off the object `priorityCounts`. -/
def chartOf (pc : List (String × JsVal)) : List JsVal :=
  [orZero (objGet pc "High"), orZero (objGet pc "Medium"), orZero (objGet pc "Low")]

/-- `updateDashboard()`: the old chart is destroyed and a new one is created
from `allTasks`.  When `allTasks` is not an array, `allTasks.reduce` throws and
nothing changes. -/
def updateDashboard (s : Client) : Client :=
  match s.allTasks with
  | Body.tasks ts => { s with myChart := some (chartData ts) }
  | Body.lists ls =>
    { s with myChart := some (chartOf (ls.foldl (fun acc _ => countUndefined acc) [])) }
  | Body.taskData _ => s
  | Body.empty => s

/-! ## Effects -/

/-- A call `fetch(r)` whose promise is awaited: the request is sent and the
rest of the calling function (`k`) waits for the response. -/
def issue (r : Request) (k : Cont) (s : Client) : Client :=
  { s with requests := s.requests ++ [r], pending := s.pending ++ [(s.requests.length, k)] }

/-- A call `socket.emit(...)`. -/
def emit (e : Emit) (s : Client) : Client :=
  { s with emitted := s.emitted ++ [e] }

/-! ## UI management -/

/-- `showView(viewId)`. -/
def showView (viewId : View) (s : Client) : Client :=
  { s with view := viewId }

/-- `renderLists(lists)`: `allLists = lists`, then one `li` with a click
handler (`listClick` below) is created per element; on a value that is not an
array `lists.forEach` throws, after the assignment. -/
def renderLists (lists : Body) (s : Client) : Client :=
  { s with allLists := lists }

/-- `renderTasks(tasks)`: first `allTasks = tasks`; then the task elements and
the progress bar are rebuilt from `tasks` and `updateDashboard()` runs.  On an
object that is not an array `tasks.filter` throws, and on a list object
`task.priority.toLowerCase()` throws: in both cases the function stops after
the assignment and `updateDashboard()` is not reached. -/
def renderTasks (tasks : Body) (s : Client) : Client :=
  match tasks with
  | Body.tasks _ => updateDashboard { s with allTasks := tasks }
  | Body.lists [] => updateDashboard { s with allTasks := tasks }
  | Body.lists (_ :: _) => { s with allTasks := tasks }
  | Body.taskData _ => { s with allTasks := tasks }
  | Body.empty => { s with allTasks := tasks }

/-! ## API interaction: the part of each `async` function before its `await` -/

/-- `logout()`. -/
def logout (s : Client) : Client :=
  { s with
    storedAuthToken := none
    storedUsername := none
    authToken := none
    currentUsername := none
    socketOpen := if s.socket then false else s.socketOpen
    view := View.authView }

/-- `fetchLists()` up to its `await`. -/
def fetchLists (s : Client) : Client :=
  issue (Request.getLists s.authToken) Cont.fetchLists s

/-- `createList(name)` up to its `await`. -/
def createList (name : String) (s : Client) : Client :=
  issue (Request.postList s.authToken name) Cont.createList s

/-- `fetchTasks(listId)` up to its `await`. -/
def fetchTasks (listId : Option Nat) (s : Client) : Client :=
  issue (Request.getTasks s.authToken listId) Cont.fetchTasks s

/-- `addTask(listId, taskData)` up to its `await`. -/
def addTask (listId : Option Nat) (taskData : Body) (s : Client) : Client :=
  issue (Request.postTask s.authToken listId taskData) Cont.addTask s

/-- `parseAndAddTask(listId, taskText)` up to its `await`. -/
def parseAndAddTask (listId : Option Nat) (taskText : String) (s : Client) : Client :=
  issue (Request.parseTask s.authToken taskText) (Cont.parseAndAddTask listId taskText) s

/-- `toggleTaskCompletion(taskId, completed)` up to its `await`. -/
def toggleTaskCompletion (taskId : Nat) (completed : Bool) (s : Client) : Client :=
  issue (Request.putTask s.authToken taskId (TaskData.completedOnly completed))
    Cont.toggleTaskCompletion s

/-- `updateTask(taskId, taskData)` up to its `await`. -/
def updateTask (taskId : Nat) (taskData : TaskData) (s : Client) : Client :=
  issue (Request.putTask s.authToken taskId taskData) Cont.updateTask s

/-- `deleteTask(taskId)` up to its `await`. -/
def deleteTask (taskId : Nat) (s : Client) : Client :=
  issue (Request.deleteTask s.authToken taskId) Cont.deleteTask s

/-- `deleteList(listId)` up to its `await`. -/
def deleteList (listId : Nat) (s : Client) : Client :=
  issue (Request.deleteList s.authToken listId) Cont.deleteList s

/-! ## The part of each `async` function after its `await` -/

/-- `fetchTasks` after the response:
`if (response.ok) { const tasks = await response.json(); renderTasks(tasks); }`;
there is no `else` branch. -/
def fetchTasks_resume (response : Response) (s : Client) : Client :=
  if response.ok then
    match response.body with
    | Body.empty => s
    | tasks => renderTasks tasks s
  else s

/-- `fetchLists` after the response: `renderLists(await response.json())` when
ok, otherwise the alert `'Failed to fetch lists. Logging out.'` and `logout()`. -/
def fetchLists_resume (response : Response) (s : Client) : Client :=
  if response.ok then
    match response.body with
    | Body.empty => s
    | lists => renderLists lists s
  else logout s

/-- `parseAndAddTask` after the response: `addTask(listId, await response.json())`
when ok, otherwise the alert and `addTask` with the typed text, priority
`'Medium'` and no due date. -/
def parseAndAddTask_resume (listId : Option Nat) (taskText : String) (response : Response)
    (s : Client) : Client :=
  if response.ok then
    match response.body with
    | Body.empty => s
    | parsedData => addTask listId parsedData s
  else addTask listId (Body.taskData (TaskData.fields taskText "Medium" none)) s

/-- `updateTask` after the response: the edit modal is hidden and
`fetchTasks(currentListId)` is called. -/
def updateTask_resume (s : Client) : Client :=
  fetchTasks s.currentListId s

/-- `deleteList` after the response: `currentListId = null`, the title is
reset, then `fetchLists()`. -/
def deleteList_resume (s : Client) : Client :=
  fetchLists { s with currentListId := none }

/-- The rest of the `async` function waiting for a response.  `createList`
calls `fetchLists()`; `addTask`, `toggleTaskCompletion` and `deleteTask` end
right after their `await`. -/
def resume (k : Cont) (response : Response) (s : Client) : Client :=
  match k with
  | Cont.fetchLists => fetchLists_resume response s
  | Cont.createList => fetchLists s
  | Cont.fetchTasks => fetchTasks_resume response s
  | Cont.addTask => s
  | Cont.parseAndAddTask listId taskText => parseAndAddTask_resume listId taskText response s
  | Cont.toggleTaskCompletion => s
  | Cont.updateTask => updateTask_resume s
  | Cont.deleteTask => s
  | Cont.deleteList => deleteList_resume s
  | Cont.dropped => s

/-- The response to request number `reqId` arrives: its continuation leaves
`pending` and runs. -/
def resolve (reqId : Nat) (response : Response) (s : Client) : Client :=
  match s.pending.lookup reqId with
  | none => s
  | some k => resume k response { s with pending := s.pending.filter (fun p => p.1 != reqId) }

/-- The promise of request number `reqId` rejects (network failure): the
`await` throws and the rest of the function does not run. -/
def reject (reqId : Nat) (s : Client) : Client :=
  { s with pending := s.pending.filter (fun p => p.1 != reqId) }

/-! ## Event handlers -/

/-- The click handler installed by `renderLists` on the `li` of `list`.
`onButton` says whether the click target is (inside) the delete button.
With `socket === null` the call `socket.emit('join_list', ...)` throws after
`currentListId` has been assigned, and the handler stops there. -/
def listClick (list : TodoList) (onButton : Bool) (s : Client) : Client :=
  if onButton then s
  else
    let s1 :=
      match s.currentListId with
      | some cur => if s.socket && truthyId (some cur) then emit (Emit.leave_list cur) s else s
      | none => s
    let s2 := { s1 with currentListId := some list.id }
    if s.socket then fetchTasks (some list.id) (emit (Emit.join_list list.id) s2)
    else s2

/-- The `'connect'` handler of the socket. -/
def onConnect (s : Client) : Client :=
  match s.currentListId with
  | some cur => if truthyId (some cur) then emit (Emit.join_list cur) s else s
  | none => s

/-- The test `data.action === 'add' || data.action === 'update' || data.action === 'delete'`. -/
def isChangeAction (action : String) : Bool :=
  action == "add" || action == "update" || action == "delete"

/-- The `'task_update'` handler of the socket. -/
def onTaskUpdate (action : String) (s : Client) : Client :=
  if isChangeAction action then fetchTasks s.currentListId s else s

/-- `handleRealtimeUpdate(data)`. -/
def handleRealtimeUpdate (action : String) (s : Client) : Client :=
  if isChangeAction action then fetchTasks s.currentListId s else s

/-- `connectSocketIO()`: `socket = io(API_BASE_URL)` and the three handlers are
registered. -/
def connectSocketIO (s : Client) : Client :=
  { s with socket := true, socketOpen := true }

/-- The array `newOrder` of the drag-end handler:
`[...taskListEl.children].map((el, index) => ({ id: el.dataset.id, position: index }))`. -/
def newOrder (children : List TaskElement) : List (String × Nat) :=
  (children.enum).map (fun p => (p.2.dataset_id, p.1))

/-- The `onEnd` handler of the `Sortable` created by `initSortable`, run on the
displayed children of `#task-list`: the reorder call is made without `await`,
then `fetchTasks(currentListId)` is called. -/
def sortableOnEnd (children : List TaskElement) (s : Client) : Client :=
  let task_ids := (newOrder children).map (fun item => item.1)
  fetchTasks s.currentListId
    (issue (Request.putReorder s.authToken s.currentListId task_ids) Cont.dropped s)

/-- The script's top level (lines 2-8) with the given `localStorage` entries. -/
def initial (storedAuthToken storedUsername : Option String) : Client :=
  { storedAuthToken := storedAuthToken
    storedUsername := storedUsername
    authToken := storedAuthToken
    currentUsername := storedUsername
    currentListId := none
    allLists := Body.lists []
    allTasks := Body.tasks []
    myChart := none
    socket := false
    socketOpen := false
    view := View.authView
    emitted := []
    requests := []
    pending := [] }

/-- The `DOMContentLoaded` handler. -/
def domContentLoaded (s : Client) : Client :=
  if truthyStr s.authToken && truthyStr s.currentUsername then
    fetchLists ( connectSocketIO (showView View.appView s))
  else showView View.authView s

/-! ## The client as a transition system -/

/-- The events the loaded page reacts to. -/
inductive Event where
  /-- A click on the `li` of a list. -/
  | listClick (list : TodoList) (onButton : Bool)
  /-- The socket reports `'connect'`. -/
  | connect
  /-- The socket delivers `'task_update'` with `data.action`. -/
  | taskUpdate (action : String)
  /-- The response to a request arrives. -/
  | resolve (reqId : Nat) (response : Response)
  /-- A request fails without a response. -/
  | reject (reqId : Nat)
  /-- The add-list form is submitted. -/
  | createList (name : String)
  /-- The add-task form is submitted: `parseAndAddTask(currentListId, taskText)`. -/
  | submitTask (taskText : String)
  /-- A task checkbox changes. -/
  | toggleTaskCompletion (taskId : Nat) (completed : Bool)
  /-- The edit-task form is submitted. -/
  | updateTask (taskId : Nat) (taskData : TaskData)
  /-- Deletion of a task is confirmed in the modal. -/
  | deleteTask (taskId : Nat)
  /-- Deletion of a list is confirmed in the modal. -/
  | deleteList (listId : Nat)
  /-- A drag gesture ends with the given children displayed. -/
  | dragEnd (children : List TaskElement)
  /-- The logout button is clicked. -/
  | logout
deriving DecidableEq, Repr

/-- One reaction of the client. -/
def step (s : Client) : Event → Client
  | Event.listClick list onButton => listClick list onButton s
  | Event.connect => onConnect s
  | Event.taskUpdate action => onTaskUpdate action s
  | Event.resolve reqId response => resolve reqId response s
  | Event.reject reqId => reject reqId s
  | Event.createList name => createList name s
  | Event.submitTask taskText => parseAndAddTask s.currentListId taskText s
  | Event.toggleTaskCompletion taskId completed => toggleTaskCompletion taskId completed s
  | Event.updateTask taskId taskData => updateTask taskId taskData s
  | Event.deleteTask taskId => deleteTask taskId s
  | Event.deleteList listId => deleteList listId s
  | Event.dragEnd children => sortableOnEnd children s
  | Event.logout => logout s

/-- The client after a sequence of events. -/
def run (s : Client) (es : List Event) : Client :=
  es.foldl step s

/-- The page right after loading with credentials in `localStorage`. -/
def boot (storedAuthToken storedUsername : Option String) : Client :=
  domContentLoaded (initial storedAuthToken storedUsername)

/-! ## Observations -/

/-- The effect of one emitted message on the set of subscribed list ids. -/
def applyEmit (acc : List Nat) : Emit → List Nat
  | Emit.join_list id => if id ∈ acc then acc else acc ++ [id]
  | Emit.leave_list id => acc.filter (fun j => j != id)

/-- The list ids for which `join_list` has been emitted without a later `leave_list`. -/
def activeSubscriptions (es : List Emit) : List Nat :=
  es.foldl applyEmit []

/-- Whether a request is a task fetch `GET /lists/{id}/tasks`. -/
def isTaskFetch : Request → Bool
  | Request.getTasks _ _ => true
  | _ => false

/-- The number of task fetches among the requests sent after the first `n`. -/
def taskFetchesSince (n : Nat) (s : Client) : Nat :=
  ((s.requests.drop n).filter isTaskFetch).length

/-- Request numbers are handed out in order: every pending continuation
belongs to a request already sent. -/
def WellFormed (s : Client) : Prop :=
  ∀ p ∈ s.pending, p.1 < s.requests.length

/-- The number of tasks whose priority is exactly `label`. -/
def countPriority (label : String) (tasks : List Task) : Nat :=
  (tasks.filter (fun t => t.priority == label)).length

/-! ## Sample data -/

/-- A list named Groceries with id 1. -/
def groceries : TodoList := { id := 1, name := "Groceries" }

/-- A list named Work with id 2. -/
def work : TodoList := { id := 2, name := "Work" }

/-- A list named Chores with id 3. -/
def chores : TodoList := { id := 3, name := "Chores" }

/-- Task 10 of the Groceries list. -/
def milk : Task :=
  { id := 10, text := "Milk", priority := "Medium", due_date := none, completed := false,
    position := 0 }

/-- Task 11 of the Groceries list. -/
def eggs : Task :=
  { id := 11, text := "Eggs", priority := "High", due_date := none, completed := false,
    position := 1 }

/-- A response with status 200 carrying a task array. -/
def okTasks (ts : List Task) : Response := { status := 200, body := Body.tasks ts }

/-- A logged-in page whose three lists have been fetched (request 0) and rendered. -/
def session : Client :=
  run (boot (some "tok") (some "ann"))
    [Event.resolve 0 { status := 200, body := Body.lists [groceries, work, chores] }]

/-- Request `reqId` is in flight with continuation `k`. -/
def Awaits (reqId : Nat) (k : Cont) (s : Client) : Prop :=
  s.pending.lookup reqId = some k

/-- The request an event settles, if any. -/
def settles : Event → Option Nat
  | Event.resolve reqId _ => some reqId
  | Event.reject reqId => some reqId
  | _ => none

/-- A click on a list with a non-zero id, or a `'connect'` of the socket. -/
def selectionEvent : Event → Bool
  | Event.listClick list _ => list.id != 0
  | Event.connect => true
  | _ => false

/-- The socket exists and the client is subscribed to the selected list at most. -/
def OneSubscription (s : Client) : Prop :=
  s.socket = true
    ∧ ((s.currentListId = none ∧ activeSubscriptions s.emitted = [])
      ∨ ∃ n : Nat, n ≠ 0 ∧ s.currentListId = some n ∧ activeSubscriptions s.emitted = [n])

instance (s : Client) : Decidable (WellFormed s) := by
  unfold WellFormed; exact inferInstance

instance (reqId : Nat) (k : Cont) (s : Client) : Decidable (Awaits reqId k s) := by
  unfold Awaits; exact inferInstance

/-- The sample page with the Groceries list open and its one task rendered
(request 1 is the task fetch issued by the click). -/
def viewing : Client :=
  run session [Event.listClick groceries false, Event.resolve 1 (okTasks [milk])]

/-! ## Lemmas on the accumulator of `updateDashboard` -/

theorem lookup_filter_ne {α β : Type} [BEq α] [LawfulBEq α] (k p : α) (acc : List (α × β))
    (h : k ≠ p) : List.lookup k (acc.filter (fun q => q.1 != p)) = List.lookup k acc := by
  induction acc with
  | nil => rfl
  | cons a t ih =>
    obtain ⟨a1, a2⟩ := a
    by_cases h1 : a1 = p
    · subst h1
      have hb : (k == a1) = false := by simpa using h
      simp [List.filter_cons, List.lookup_cons, ih, hb]
    · by_cases h2 : k = a1
      · subst h2; simp [List.filter_cons, List.lookup_cons, h1]
      · have hb : (k == a1) = false := by simpa using h2
        simp [List.filter_cons, List.lookup_cons, h1, hb, ih]

theorem objGet_objSet_same (acc : List (String × JsVal)) (k : String) (v : JsVal)
    (hk : k ≠ "__proto__") : objGet (objSet acc k v) k = some v := by
  simp [objGet, objSet, hk, List.lookup_cons]

theorem objGet_objSet_ne (acc : List (String × JsVal)) (k p : String) (v : JsVal)
    (h : k ≠ p) : objGet (objSet acc p v) k = objGet acc k := by
  unfold objGet objSet
  by_cases hp : p = "__proto__"
  · simp [hp]
  · have hb : (k == p) = false := by simpa using h
    simp only [hp, if_false, List.lookup_cons, hb, lookup_filter_ne k p acc h]

/-- One step of the reducer adds one to the count of the task's priority and
leaves the count of every other own key as it is. -/
theorem orZero_objGet_countStep (acc : List (String × JsVal)) (t : Task) (k : String)
    (hk : k ∉ protoKeys) (n : Nat) (h : orZero (objGet acc k) = JsVal.num n) :
    orZero (objGet (countStep acc t) k)
      = JsVal.num (n + if t.priority == k then 1 else 0) := by
  have hproto : k ≠ "__proto__" := by
    intro hc; apply hk; rw [hc]; decide
  by_cases hp : t.priority = k
  · subst hp
    unfold countStep
    rw [objGet_objSet_same _ _ _ hproto]
    cases hg : objGet acc t.priority with
    | none => simp [hg, orZero] at h; simp [orZero, orZeroPlusOne, ← h]
    | some v =>
      cases v with
      | num m =>
        simp [hg, orZero] at h
        simp [orZero, orZeroPlusOne, h]
      | other => simp [hg, orZero] at h
  · have hne : k ≠ t.priority := fun hc => hp hc.symm
    unfold countStep
    rw [objGet_objSet_ne _ _ _ _ hne, h]
    simp [hp]

theorem orZero_objGet_foldl (ts : List Task) (k : String) (hk : k ∉ protoKeys) :
    ∀ (acc : List (String × JsVal)) (n : Nat), orZero (objGet acc k) = JsVal.num n →
      orZero (objGet (ts.foldl countStep acc) k) = JsVal.num (n + countPriority k ts) := by
  induction ts with
  | nil => intro acc n h; simpa [countPriority] using h
  | cons t ts ih =>
    intro acc n h
    rw [List.foldl_cons, ih _ _ (orZero_objGet_countStep acc t k hk n h)]
    by_cases hp : t.priority = k
    · simp [countPriority, List.filter_cons, hp]; omega
    · simp [countPriority, List.filter_cons, hp]

theorem orZero_objGet_priorityCounts (ts : List Task) (k : String) (hk : k ∉ protoKeys) :
    orZero (objGet (priorityCounts ts) k) = JsVal.num (countPriority k ts) := by
  have h := orZero_objGet_foldl ts k hk [] 0 (by simp [objGet, hk, orZero])
  simpa [priorityCounts] using h

theorem countPriority_sum (ts : List Task)
    (h : ∀ t ∈ ts, t.priority = "High" ∨ t.priority = "Medium" ∨ t.priority = "Low") :
    countPriority "High" ts + countPriority "Medium" ts + countPriority "Low" ts = ts.length := by
  induction ts with
  | nil => rfl
  | cons t ts ih =>
    have ih1 := ih (fun u hu => h u (List.mem_cons_of_mem _ hu))
    have hHM : ("High" : String) ≠ "Medium" := by decide
    have hHL : ("High" : String) ≠ "Low" := by decide
    have hML : ("Medium" : String) ≠ "Low" := by decide
    rcases h t (List.mem_cons_self _ _) with hp | hp | hp
    · simp only [countPriority, List.filter_cons, hp] at ih1 ⊢
      simp [hHM, hHL] at ih1 ⊢; omega
    · simp only [countPriority, List.filter_cons, hp] at ih1 ⊢
      simp [hHM.symm, hML] at ih1 ⊢; omega
    · simp only [countPriority, List.filter_cons, hp] at ih1 ⊢
      simp [hHL.symm, hML.symm] at ih1 ⊢; omega

/-! ## Requests in flight -/

theorem updateDashboard_fields (s : Client) :
    (updateDashboard s).pending = s.pending ∧ (updateDashboard s).requests = s.requests
      ∧ (updateDashboard s).currentListId = s.currentListId
      ∧ (updateDashboard s).allTasks = s.allTasks := by
  unfold updateDashboard
  split <;> simp

/-- Whatever value `renderTasks` is called with, `allTasks` holds that value
afterwards; the selection and the request queue are untouched. -/
theorem renderTasks_fields (tasks : Body) (s : Client) :
    (renderTasks tasks s).pending = s.pending ∧ (renderTasks tasks s).requests = s.requests
      ∧ (renderTasks tasks s).currentListId = s.currentListId
      ∧ (renderTasks tasks s).allTasks = tasks := by
  unfold renderTasks
  split <;> simp [updateDashboard_fields]

theorem fetchTasks_resume_fields (response : Response) (s : Client) :
    (fetchTasks_resume response s).pending = s.pending
      ∧ (fetchTasks_resume response s).requests = s.requests
      ∧ (fetchTasks_resume response s).currentListId = s.currentListId := by
  unfold fetchTasks_resume
  split
  · split
    · simp
    · simp [renderTasks_fields]
  · simp

theorem fetchLists_resume_fields (response : Response) (s : Client) :
    (fetchLists_resume response s).pending = s.pending
      ∧ (fetchLists_resume response s).requests = s.requests := by
  unfold fetchLists_resume
  split
  · split <;> simp [renderLists]
  · simp [logout]

theorem awaits_congr (A : Nat) (k : Cont) (s t : Client) (hp : t.pending = s.pending)
    (h : Awaits A k s) : Awaits A k t := by
  unfold Awaits at *; rw [hp]; exact h

theorem wellFormed_congr (s t : Client) (hp : t.pending = s.pending)
    (hr : t.requests = s.requests) (h : WellFormed s) : WellFormed t := by
  intro p hp1; rw [hp] at hp1; rw [hr]; exact h p hp1

theorem issue_awaits (A : Nat) (k : Cont) (r : Request) (k' : Cont) (s : Client)
    (h : Awaits A k s) : Awaits A k (issue r k' s) := by
  unfold Awaits at *
  simp [issue, List.lookup_append, h]

theorem resume_awaits (A : Nat) (k : Cont) (k' : Cont) (response : Response) (s : Client)
    (h : Awaits A k s) : Awaits A k (resume k' response s) := by
  cases k' with
  | fetchLists => exact awaits_congr _ _ _ _ (fetchLists_resume_fields response s).1 h
  | createList => exact issue_awaits _ _ _ _ _ h
  | fetchTasks => exact awaits_congr _ _ _ _ (fetchTasks_resume_fields response s).1 h
  | addTask => exact h
  | parseAndAddTask listId taskText =>
    simp only [resume, parseAndAddTask_resume]
    split
    · split
      · exact h
      · exact issue_awaits _ _ _ _ _ h
    · exact issue_awaits _ _ _ _ _ h
  | toggleTaskCompletion => exact h
  | updateTask => exact issue_awaits _ _ _ _ _ h
  | deleteTask => exact h
  | deleteList => exact issue_awaits _ _ _ _ _ h
  | dropped => exact h

theorem step_awaits (A : Nat) (k : Cont) (s : Client) (e : Event)
    (h : Awaits A k s) (he : settles e ≠ some A) : Awaits A k (step s e) := by
  cases e with
  | listClick list onButton =>
    unfold Awaits at *
    cases hc : s.currentListId <;> cases hs : s.socket <;> cases onButton <;>
      simp [step, listClick, emit, fetchTasks, issue, List.lookup_append, h, hc, hs]
    split <;> simp [h, List.lookup_append]
  | connect =>
    unfold Awaits at *
    cases hc : s.currentListId <;> simp [step, onConnect, emit, h, hc]
    split <;> simp [h]
  | taskUpdate action =>
    unfold Awaits at *
    simp only [step, onTaskUpdate]; split <;> simp [fetchTasks, issue, List.lookup_append, h]
  | resolve reqId response =>
    have hne : A ≠ reqId := fun hc => he (by simp [settles, hc])
    simp only [step, resolve]
    split
    · exact h
    · apply resume_awaits
      unfold Awaits at *
      simpa [lookup_filter_ne A reqId s.pending hne] using h
  | reject reqId =>
    have hne : A ≠ reqId := fun hc => he (by simp [settles, hc])
    unfold Awaits at *
    simpa [step, reject, lookup_filter_ne A reqId s.pending hne] using h
  | createList name => exact issue_awaits _ _ _ _ _ h
  | submitTask taskText => exact issue_awaits _ _ _ _ _ h
  | toggleTaskCompletion taskId completed => exact issue_awaits _ _ _ _ _ h
  | updateTask taskId taskData => exact issue_awaits _ _ _ _ _ h
  | deleteTask taskId => exact issue_awaits _ _ _ _ _ h
  | deleteList listId => exact issue_awaits _ _ _ _ _ h
  | dragEnd children => exact issue_awaits _ _ _ _ _ (issue_awaits _ _ _ _ _ h)
  | logout => exact h

theorem run_awaits (A : Nat) (k : Cont) (es : List Event) :
    ∀ s : Client, Awaits A k s → (∀ e ∈ es, settles e ≠ some A) → Awaits A k (run s es) := by
  induction es with
  | nil => intro s h _; exact h
  | cons e es ih =>
    intro s h hes
    exact ih (step s e) (step_awaits A k s e h (hes e (List.mem_cons_self _ _)))
      (fun e' he' => hes e' (List.mem_cons_of_mem _ he'))

theorem issue_wellFormed (r : Request) (k : Cont) (s : Client) (h : WellFormed s) :
    WellFormed (issue r k s) := by
  intro p hp
  simp only [issue, List.mem_append, List.mem_singleton, List.length_append,
    List.length_singleton] at hp ⊢
  rcases hp with hp | hp
  · exact Nat.lt_succ_of_lt (h p hp)
  · subst hp; exact Nat.lt_succ_self _

theorem filter_wellFormed (s : Client) (B : Nat) (h : WellFormed s) :
    WellFormed { s with pending := s.pending.filter (fun p => p.1 != B) } := by
  intro p hp
  exact h p (List.mem_of_mem_filter hp)

theorem resume_wellFormed (k : Cont) (response : Response) (s : Client) (h : WellFormed s) :
    WellFormed (resume k response s) := by
  cases k with
  | fetchLists =>
    exact wellFormed_congr _ _ (fetchLists_resume_fields response s).1
      (fetchLists_resume_fields response s).2 h
  | createList => exact issue_wellFormed _ _ _ h
  | fetchTasks =>
    exact wellFormed_congr _ _ (fetchTasks_resume_fields response s).1
      (fetchTasks_resume_fields response s).2.1 h
  | addTask => exact h
  | parseAndAddTask listId taskText =>
    simp only [resume, parseAndAddTask_resume]
    split
    · split
      · exact h
      · exact issue_wellFormed _ _ _ h
    · exact issue_wellFormed _ _ _ h
  | toggleTaskCompletion => exact h
  | updateTask => exact issue_wellFormed _ _ _ h
  | deleteTask => exact h
  | deleteList => exact issue_wellFormed _ _ _ h
  | dropped => exact h

theorem step_wellFormed (s : Client) (e : Event) (h : WellFormed s) : WellFormed (step s e) := by
  cases e with
  | listClick list onButton =>
    simp only [step, listClick]
    split
    · exact h
    · split
      · exact issue_wellFormed _ _ _ (by split <;> first | exact h | (split <;> exact h))
      · split <;> first | exact h | (split <;> exact h)
  | connect =>
    simp only [step, onConnect]
    split <;> first | exact h | (split <;> exact h)
  | taskUpdate action =>
    simp only [step, onTaskUpdate]
    split
    · exact issue_wellFormed _ _ _ h
    · exact h
  | resolve reqId response =>
    simp only [step, resolve]
    split
    · exact h
    · exact resume_wellFormed _ _ _ (filter_wellFormed s reqId h)
  | reject reqId => exact filter_wellFormed s reqId h
  | createList name => exact issue_wellFormed _ _ _ h
  | submitTask taskText => exact issue_wellFormed _ _ _ h
  | toggleTaskCompletion taskId completed => exact issue_wellFormed _ _ _ h
  | updateTask taskId taskData => exact issue_wellFormed _ _ _ h
  | deleteTask taskId => exact issue_wellFormed _ _ _ h
  | deleteList listId => exact issue_wellFormed _ _ _ h
  | dragEnd children => exact issue_wellFormed _ _ _ (issue_wellFormed _ _ _ h)
  | logout => exact h

theorem run_wellFormed (es : List Event) : ∀ s : Client, WellFormed s → WellFormed (run s es) := by
  induction es with
  | nil => intro s h; exact h
  | cons e es ih => intro s h; exact ih (step s e) (step_wellFormed s e h)

theorem boot_wellFormed (tok user : Option String) : WellFormed (boot tok user) := by
  have h0 : ∀ c : Client, c.pending = [] → WellFormed c := by
    intro c hc p hp; rw [hc] at hp; cases hp
  unfold boot domContentLoaded
  split
  · exact issue_wellFormed _ _ _ (h0 _ rfl)
  · exact h0 _ rfl

theorem wellFormed_lookup_none (s : Client) (h : WellFormed s) (n : Nat)
    (hn : s.requests.length ≤ n) : s.pending.lookup n = none := by
  rw [List.lookup_eq_none_iff]
  intro p hp
  have := h p hp
  simp only [bne_iff_ne, ne_eq]
  omega

theorem run_append (s : Client) (es fs : List Event) : run s (es ++ fs) = run (run s es) fs := by
  simp [run, List.foldl_append]

/-! ## Every task fetch sent is awaited by `fetchTasks` -/

theorem no_new_request (s : Client) (A : Nat) (q : Request) (hA : s.requests.length ≤ A)
    (h : s.requests[A]? = some q) : False := by
  rw [List.getElem?_eq_none hA] at h
  cases h

/-- A request found at position `A`, not below the old length, of the log
after one `issue` is the issued request, and its continuation is awaited. -/
theorem issue_registers (s : Client) (r : Request) (k : Cont) (A : Nat) (q : Request)
    (hwf : WellFormed s) (hA : s.requests.length ≤ A)
    (h : (issue r k s).requests[A]? = some q) :
    A = s.requests.length ∧ q = r ∧ Awaits A k (issue r k s) := by
  have h1 : (s.requests ++ [r])[A]? = some q := h
  rw [List.getElem?_append_right hA] at h1
  have h0 : A - s.requests.length = 0 := by
    by_contra hne
    obtain ⟨d, hd⟩ := Nat.exists_eq_succ_of_ne_zero hne
    rw [hd] at h1
    simp at h1
  rw [h0] at h1
  simp only [List.getElem?_cons_zero, Option.some.injEq] at h1
  have hAeq : A = s.requests.length := by omega
  refine ⟨hAeq, h1.symm, ?_⟩
  unfold Awaits
  rw [hAeq]
  simp [issue, List.lookup_append, wellFormed_lookup_none s hwf s.requests.length (Nat.le_refl _)]

theorem resume_registers (k : Cont) (response : Response) (s : Client) (A : Nat)
    (token : Option String) (listId : Option Nat) (hwf : WellFormed s)
    (hA : s.requests.length ≤ A)
    (h : (resume k response s).requests[A]? = some (Request.getTasks token listId)) :
    Awaits A Cont.fetchTasks (resume k response s) := by
  cases k with
  | fetchLists =>
    simp only [resume] at h
    rw [(fetchLists_resume_fields response s).2] at h
    exact (no_new_request s A _ hA h).elim
  | createList =>
    have := issue_registers s _ _ A _ hwf hA h
    exact absurd this.2.1 (by simp)
  | fetchTasks =>
    simp only [resume] at h
    rw [(fetchTasks_resume_fields response s).2.1] at h
    exact (no_new_request s A _ hA h).elim
  | addTask => exact (no_new_request s A _ hA h).elim
  | parseAndAddTask l taskText =>
    simp only [resume, parseAndAddTask_resume] at h ⊢
    split at h
    · split at h
      · exact (no_new_request s A _ hA h).elim
      · have := issue_registers s _ _ A _ hwf hA h
        exact absurd this.2.1 (by simp)
    · have := issue_registers s _ _ A _ hwf hA h
      exact absurd this.2.1 (by simp)
  | toggleTaskCompletion => exact (no_new_request s A _ hA h).elim
  | updateTask => exact (issue_registers s _ _ A _ hwf hA h).2.2
  | deleteTask => exact (no_new_request s A _ hA h).elim
  | deleteList =>
    have := issue_registers { s with currentListId := none } _ _ A _ hwf hA h
    exact absurd this.2.1 (by simp)
  | dropped => exact (no_new_request s A _ hA h).elim

/-- Whatever handler sends a task fetch, the request is awaited by the rest of
`fetchTasks`: a `getTasks` request that an event adds to the log at position
`A` has `Cont.fetchTasks` pending under `A`. -/
theorem step_registers (s : Client) (e : Event) (A : Nat) (token : Option String)
    (listId : Option Nat) (hwf : WellFormed s) (hA : s.requests.length ≤ A)
    (h : (step s e).requests[A]? = some (Request.getTasks token listId)) :
    Awaits A Cont.fetchTasks (step s e) := by
  cases e with
  | listClick list onButton =>
    cases onButton with
    | true => exact (no_new_request s A _ hA (by simpa [step, listClick] using h)).elim
    | false =>
      cases hs : s.socket with
      | false =>
        refine (no_new_request s A (Request.getTasks token listId) hA ?_).elim
        cases hc : s.currentListId <;> simpa [step, listClick, hs, hc] using h
      | true =>
        have key : ∃ s0 : Client, WellFormed s0 ∧ s0.requests = s.requests
            ∧ step s (Event.listClick list false) = fetchTasks (some list.id) s0 := by
          cases hc : s.currentListId with
          | none =>
            exact ⟨emit (Emit.join_list list.id) { s with currentListId := some list.id },
              hwf, rfl, by simp [step, listClick, hs, hc]⟩
          | some cur =>
            by_cases hz : cur = 0
            · exact ⟨emit (Emit.join_list list.id) { s with currentListId := some list.id },
                hwf, rfl, by simp [step, listClick, hs, hc, hz, truthyId]⟩
            · exact ⟨emit (Emit.join_list list.id)
                  { emit (Emit.leave_list cur) s with currentListId := some list.id },
                hwf, rfl, by simp [step, listClick, hs, hc, hz, truthyId]⟩
        obtain ⟨s0, hwf0, hr0, hstep⟩ := key
        rw [hstep] at h ⊢
        exact (issue_registers s0 _ _ A _ hwf0 (by rw [hr0]; exact hA) h).2.2
  | connect =>
    refine (no_new_request s A (Request.getTasks token listId) hA ?_).elim
    cases hc : s.currentListId with
    | none => simpa [step, onConnect, hc] using h
    | some cur =>
      by_cases hz : cur = 0
      · simpa [step, onConnect, hc, hz, truthyId] using h
      · simpa [step, onConnect, hc, hz, truthyId, emit] using h
  | taskUpdate action =>
    cases hact : isChangeAction action with
    | false =>
      simp only [step, onTaskUpdate, hact] at h
      exact (no_new_request s A _ hA h).elim
    | true =>
      simp only [step, onTaskUpdate, hact, if_true] at h ⊢
      exact (issue_registers s _ _ A _ hwf hA h).2.2
  | resolve reqId response =>
    cases hk : s.pending.lookup reqId with
    | none =>
      simp only [step, resolve, hk] at h
      exact (no_new_request s A _ hA h).elim
    | some k =>
      simp only [step, resolve, hk] at h ⊢
      exact resume_registers k response _ A token listId (filter_wellFormed s reqId hwf) hA h
  | reject reqId => exact (no_new_request s A _ hA h).elim
  | createList name =>
    exact absurd (issue_registers s _ _ A _ hwf hA h).2.1 (by simp)
  | submitTask taskText =>
    exact absurd (issue_registers s _ _ A _ hwf hA h).2.1 (by simp)
  | toggleTaskCompletion taskId completed =>
    exact absurd (issue_registers s _ _ A _ hwf hA h).2.1 (by simp)
  | updateTask taskId taskData =>
    exact absurd (issue_registers s _ _ A _ hwf hA h).2.1 (by simp)
  | deleteTask taskId =>
    exact absurd (issue_registers s _ _ A _ hwf hA h).2.1 (by simp)
  | deleteList listId =>
    exact absurd (issue_registers s _ _ A _ hwf hA h).2.1 (by simp)
  | dragEnd children =>
    by_cases hlen : A = s.requests.length
    · exfalso
      have h1 : ((s.requests ++ [Request.putReorder s.authToken s.currentListId
          ((newOrder children).map (fun item => item.1))]) ++
          [Request.getTasks s.authToken s.currentListId])[A]?
          = some (Request.getTasks token listId) := h
      rw [List.getElem?_append_left (by simp [hlen]),
        List.getElem?_append_right (by omega), hlen] at h1
      simp at h1
    · have hwf1 := issue_wellFormed (Request.putReorder s.authToken s.currentListId
        ((newOrder children).map (fun item => item.1))) Cont.dropped s hwf
      exact (issue_registers _ _ _ A _ hwf1 (by simp [issue]; omega) h).2.2
  | logout => exact (no_new_request s A _ hA h).elim

/-! ## The answer to a task fetch -/

/-- An ok response with a JSON body, delivered to a waiting `fetchTasks`, puts
that body into `allTasks` and leaves the selection alone. -/
theorem resolve_fetchTasks_ok (s : Client) (reqId : Nat) (response : Response)
    (h : Awaits reqId Cont.fetchTasks s) (hok : response.ok = true)
    (hbody : response.body ≠ Body.empty) :
    (resolve reqId response s).allTasks = response.body
      ∧ (resolve reqId response s).currentListId = s.currentListId := by
  unfold Awaits at h
  cases hb : response.body with
  | empty => exact absurd hb hbody
  | tasks ts => simp [resolve, h, resume, fetchTasks_resume, hok, hb, renderTasks_fields]
  | lists ls => simp [resolve, h, resume, fetchTasks_resume, hok, hb, renderTasks_fields]
  | taskData d => simp [resolve, h, resume, fetchTasks_resume, hok, hb, renderTasks_fields]

/-- A response that is not ok, or has no JSON body, delivered to a waiting
`fetchTasks`, leaves `allTasks` and the selection alone. -/
theorem resolve_fetchTasks_failed (s : Client) (reqId : Nat) (response : Response)
    (h : Awaits reqId Cont.fetchTasks s)
    (hfail : response.ok = false ∨ response.body = Body.empty) :
    (resolve reqId response s).allTasks = s.allTasks := by
  unfold Awaits at h
  rcases hfail with hok | hb
  · simp [resolve, h, resume, fetchTasks_resume, hok]
  · cases hok : response.ok <;> simp [resolve, h, resume, fetchTasks_resume, hok, hb]

theorem listClick_currentListId (list : TodoList) (s : Client) :
    (listClick list false s).currentListId = some list.id := by
  cases hs : s.socket <;> cases hc : s.currentListId <;>
    simp [listClick, hc, hs, emit, fetchTasks, issue]

theorem listClick_requests (list : TodoList) (s : Client) (hs : s.socket = true) :
    (listClick list false s).requests
      = s.requests ++ [Request.getTasks s.authToken (some list.id)] := by
  cases hc : s.currentListId with
  | none => simp [listClick, hc, hs, emit, fetchTasks, issue]
  | some v =>
    by_cases hv : v = 0
    · simp [listClick, hc, hs, hv, truthyId, emit, fetchTasks, issue]
    · simp [listClick, hc, hs, hv, truthyId, emit, fetchTasks, issue]

theorem listClick_fields (list : TodoList) (s : Client) (hs : s.socket = true) :
    (listClick list false s).socket = true
      ∧ (listClick list false s).authToken = s.authToken := by
  cases hc : s.currentListId with
  | none => simp [listClick, hc, hs, emit, fetchTasks, issue]
  | some v =>
    by_cases hv : v = 0
    · simp [listClick, hc, hs, hv, truthyId, emit, fetchTasks, issue]
    · simp [listClick, hc, hs, hv, truthyId, emit, fetchTasks, issue]

theorem step_taskUpdate (s : Client) (a : String) (h : isChangeAction a = true) :
    step s (Event.taskUpdate a)
      = issue (Request.getTasks s.authToken s.currentListId) Cont.fetchTasks s := by
  simp [step, onTaskUpdate, h, fetchTasks]

theorem newOrder_ids (children : List TaskElement) :
    (newOrder children).map (fun item => item.1) = children.map TaskElement.dataset_id := by
  unfold newOrder
  rw [List.map_map]
  have : ((fun item : String × Nat => item.1) ∘ fun p : Nat × TaskElement => (p.2.dataset_id, p.1))
      = TaskElement.dataset_id ∘ Prod.snd := rfl
  rw [this, ← List.map_map, List.enum_map_snd]

/-! ## The request log only grows -/

theorem resume_requests_length (k : Cont) (response : Response) (s : Client) :
    s.requests.length ≤ (resume k response s).requests.length := by
  cases k with
  | fetchLists => simp only [resume]; rw [(fetchLists_resume_fields response s).2]
  | createList => simp [resume, fetchLists, issue]
  | fetchTasks => simp only [resume]; rw [(fetchTasks_resume_fields response s).2.1]
  | addTask => exact Nat.le_refl _
  | parseAndAddTask listId taskText =>
    simp only [resume, parseAndAddTask_resume]
    split
    · split <;> simp [addTask, issue]
    · simp [addTask, issue]
  | toggleTaskCompletion => exact Nat.le_refl _
  | updateTask => simp [resume, updateTask_resume, fetchTasks, issue]
  | deleteTask => exact Nat.le_refl _
  | deleteList => simp [resume, deleteList_resume, fetchLists, issue]
  | dropped => exact Nat.le_refl _

theorem step_requests_length (s : Client) (e : Event) :
    s.requests.length ≤ (step s e).requests.length := by
  cases e with
  | listClick list onButton =>
    cases onButton with
    | true => simp [step, listClick]
    | false =>
      cases hs : s.socket with
      | true => rw [show step s (Event.listClick list false) = listClick list false s from rfl,
          listClick_requests list s hs]; simp
      | false => cases hc : s.currentListId <;> simp [step, listClick, hs, hc]
  | connect =>
    cases hc : s.currentListId with
    | none => simp [step, onConnect, hc]
    | some cur =>
      by_cases hz : cur = 0
      · simp [step, onConnect, hc, hz, truthyId]
      · simp [step, onConnect, hc, hz, truthyId, emit]
  | taskUpdate action =>
    simp only [step, onTaskUpdate]
    split <;> simp [fetchTasks, issue]
  | resolve reqId response =>
    cases hk : s.pending.lookup reqId with
    | none => simp [step, resolve, hk]
    | some k =>
      simp only [step, resolve, hk]
      exact resume_requests_length k response
        { s with pending := s.pending.filter (fun p => p.1 != reqId) }
  | reject reqId => exact Nat.le_refl _
  | createList name => simp [step, createList, issue]
  | submitTask taskText => simp [step, parseAndAddTask, issue]
  | toggleTaskCompletion taskId completed => simp [step, toggleTaskCompletion, issue]
  | updateTask taskId taskData => simp [step, updateTask, issue]
  | deleteTask taskId => simp [step, deleteTask, issue]
  | deleteList listId => simp [step, deleteList, issue]
  | dragEnd children => simp [step, sortableOnEnd, fetchTasks, issue]
  | logout => exact Nat.le_refl _

theorem run_requests_length (es : List Event) :
    ∀ s : Client, s.requests.length ≤ (run s es).requests.length := by
  induction es with
  | nil => intro s; exact Nat.le_refl _
  | cons e es ih => intro s; exact Nat.le_trans (step_requests_length s e) (ih (step s e))

theorem lt_length_of_getElem? {α : Type} (l : List α) (n : Nat) (a : α) (h : l[n]? = some a) :
    n < l.length := by
  by_contra hn
  rw [List.getElem?_eq_none (Nat.le_of_not_lt hn)] at h
  cases h

/-! ## Subscriptions kept by the click and connect handlers -/

theorem activeSubscriptions_append (es : List Emit) (e : Emit) :
    activeSubscriptions (es ++ [e]) = applyEmit (activeSubscriptions es) e := by
  simp [activeSubscriptions, List.foldl_append]

/-- The click handler and the connect handler keep the client subscribed to
the selected list only, as long as list ids are non-zero. -/
theorem step_oneSubscription (s : Client) (e : Event) (h : OneSubscription s)
    (he : selectionEvent e = true) : OneSubscription (step s e) := by
  obtain ⟨hs, hsub⟩ := h
  cases e with
  | listClick list onButton =>
    have hid : list.id ≠ 0 := by simpa [selectionEvent] using he
    cases onButton with
    | true => simpa [step, listClick] using ⟨hs, hsub⟩
    | false =>
      rcases hsub with ⟨hc, ha⟩ | ⟨n, hn, hc, ha⟩
      · refine ⟨by simp [step, listClick, hc, hs, emit, fetchTasks, issue], Or.inr ⟨list.id, hid, ?_, ?_⟩⟩
        · simp [step, listClick, hc, hs, emit, fetchTasks, issue]
        · simp [step, listClick, hc, hs, emit, fetchTasks, issue, activeSubscriptions_append, ha,
            applyEmit]
      · refine ⟨by simp [step, listClick, hc, hs, hn, truthyId, emit, fetchTasks, issue],
          Or.inr ⟨list.id, hid, ?_, ?_⟩⟩
        · simp [step, listClick, hc, hs, hn, truthyId, emit, fetchTasks, issue]
        · have hem : (step s (Event.listClick list false)).emitted
              = (s.emitted ++ [Emit.leave_list n]) ++ [Emit.join_list list.id] := by
            simp [step, listClick, hc, hs, hn, truthyId, emit, fetchTasks, issue]
          rw [hem, activeSubscriptions_append, activeSubscriptions_append, ha]
          simp [applyEmit]
  | connect =>
    rcases hsub with ⟨hc, ha⟩ | ⟨n, hn, hc, ha⟩
    · exact ⟨by simp [step, onConnect, hc, hs], Or.inl (by simp [step, onConnect, hc, ha])⟩
    · refine ⟨by simp [step, onConnect, hc, hn, truthyId, emit, hs], Or.inr ⟨n, hn, ?_, ?_⟩⟩
      · simp [step, onConnect, hc, hn, truthyId, emit]
      · simp [step, onConnect, hc, hn, truthyId, emit, activeSubscriptions_append, ha, applyEmit]
  | taskUpdate action => simp [selectionEvent] at he
  | resolve reqId response => simp [selectionEvent] at he
  | reject reqId => simp [selectionEvent] at he
  | createList name => simp [selectionEvent] at he
  | submitTask taskText => simp [selectionEvent] at he
  | toggleTaskCompletion taskId completed => simp [selectionEvent] at he
  | updateTask taskId taskData => simp [selectionEvent] at he
  | deleteTask taskId => simp [selectionEvent] at he
  | deleteList listId => simp [selectionEvent] at he
  | dragEnd children => simp [selectionEvent] at he
  | logout => simp [selectionEvent] at he

/-- Without list deletions, clicks on lists with non-zero ids and socket
connects never leave more than one subscription active. -/
theorem clicks_keep_one_subscription (es : List Event) :
    ∀ s : Client, OneSubscription s → (∀ e ∈ es, selectionEvent e = true) →
      (activeSubscriptions (run s es).emitted).length ≤ 1 := by
  induction es with
  | nil =>
    intro s h _
    rcases h.2 with ⟨_, ha⟩ | ⟨n, _, _, ha⟩ <;> simp [run, ha]
  | cons e es ih =>
    intro s h hes
    exact ih (step s e) (step_oneSubscription s e h (hes e (List.mem_cons_self _ _)))
      (fun e' he' => hes e' (List.mem_cons_of_mem _ he'))

theorem session_oneSubscription : OneSubscription session :=
  ⟨rfl, Or.inl ⟨rfl, rfl⟩⟩

/-! ## Stale task fetches (C1, C2) -/

/-- C1, as stated, fails: on the sample page a task fetch is issued for
Groceries (request 1), the selection changes to Work, and the ok response to
request 1 then replaces the rendered task set although Work is selected. -/
theorem stale_result_counterexample :
    (run session [Event.listClick groceries false, Event.listClick work false]).currentListId
        = some 2
      ∧ (run session [Event.listClick groceries false, Event.listClick work false,
            Event.resolve 1 (okTasks [milk])]).allTasks
        ≠ (run session [Event.listClick groceries false, Event.listClick work false]).allTasks := by
  decide

/-- C1 (amended): take any event that sends a task fetch A for list X (the
request `GET /lists/X/tasks` appears at position A of the request log), any
events after it, a click that selects list Y, and any further events, none of
them settling A.  An ok response to A carrying a task array is then rendered:
`allTasks` becomes that array, and the selection stays what it was just before
the response (it is Y right after the click).  Nothing compares the list of a
response with the selected list. -/
theorem stale_result_is_rendered (s : Client) (issuing : Event) (A : Nat)
    (token : Option String) (X : Nat) (Y : TodoList) (es fs : List Event)
    (response : Response) (tasks : List Task)
    (hwf : WellFormed s) (hA : s.requests.length ≤ A)
    (hissued : (step s issuing).requests[A]? = some (Request.getTasks token (some X)))
    (hes : ∀ e ∈ es, settles e ≠ some A) (hfs : ∀ e ∈ fs, settles e ≠ some A)
    (hok : response.ok = true) (hbody : response.body = Body.tasks tasks) :
    (run s (issuing :: es ++ [Event.listClick Y false])).currentListId = some Y.id
      ∧ (run s (issuing :: es ++ [Event.listClick Y false] ++ fs
            ++ [Event.resolve A response])).allTasks = Body.tasks tasks
      ∧ (run s (issuing :: es ++ [Event.listClick Y false] ++ fs
            ++ [Event.resolve A response])).currentListId
        = (run s (issuing :: es ++ [Event.listClick Y false] ++ fs)).currentListId := by
  have h0 : Awaits A Cont.fetchTasks (step s issuing) :=
    step_registers s issuing A token (some X) hwf hA hissued
  have h1 : Awaits A Cont.fetchTasks (run (step s issuing) es) := run_awaits _ _ es _ h0 hes
  have h2 : Awaits A Cont.fetchTasks
      (step (run (step s issuing) es) (Event.listClick Y false)) :=
    step_awaits _ _ _ _ h1 (by simp [settles])
  have h3 : Awaits A Cont.fetchTasks
      (run (step (run (step s issuing) es) (Event.listClick Y false)) fs) :=
    run_awaits _ _ fs _ h2 hfs
  have hne : response.body ≠ Body.empty := by rw [hbody]; simp
  have h4 := resolve_fetchTasks_ok _ _ response h3 hok hne
  have e1 : run s (issuing :: es ++ [Event.listClick Y false])
      = step (run (step s issuing) es) (Event.listClick Y false) := by
    rw [run_append]; rfl
  have e2 : run s (issuing :: es ++ [Event.listClick Y false] ++ fs)
      = run (step (run (step s issuing) es) (Event.listClick Y false)) fs := by
    rw [run_append, e1]
  have e3 : run s (issuing :: es ++ [Event.listClick Y false] ++ fs
        ++ [Event.resolve A response])
      = resolve A response
          (run (step (run (step s issuing) es) (Event.listClick Y false)) fs) := by
    rw [run_append, e2]; rfl
  refine ⟨?_, ?_, ?_⟩
  · rw [e1]; exact listClick_currentListId Y _
  · rw [e3, h4.1, hbody]
  · rw [e3, e2]; exact h4.2

/-- C1 (amended), on the sample page: the fetch for Groceries (request 1) is
answered after a notification, the click on Work and the answer to the fetch
for Work (request 3). -/
theorem stale_result_is_rendered_witness :
    WellFormed session ∧ session.requests.length ≤ 1
      ∧ (step session (Event.listClick groceries false)).requests[1]?
          = some (Request.getTasks (some "tok") (some 1))
      ∧ (run session ([Event.listClick groceries false, Event.taskUpdate "add"]
            ++ [Event.listClick work false] ++ [Event.resolve 3 (okTasks [eggs])]
            ++ [Event.resolve 1 (okTasks [milk])])).allTasks = Body.tasks [milk] :=
  ⟨run_wellFormed _ _ (boot_wellFormed _ _), by decide, by decide,
    (stale_result_is_rendered session (Event.listClick groceries false) 1 (some "tok") 1 work
      [Event.taskUpdate "add"] [Event.resolve 3 (okTasks [eggs])] (okTasks [milk]) [milk]
      (run_wellFormed _ _ (boot_wellFormed _ _)) (by decide) (by decide) (by decide) (by decide)
      rfl rfl).2.1⟩

/-- C2, as stated, fails: with Groceries selected, fetch A (request 1) and then
fetch B (request 2) are issued for it; B resolves first with two tasks, A
resolves later with one task, and the rendered set is not the result of B. -/
theorem late_result_counterexample :
    (run session [Event.listClick groceries false, Event.taskUpdate "add"]).requests
        = [Request.getLists (some "tok"), Request.getTasks (some "tok") (some 1),
           Request.getTasks (some "tok") (some 1)]
      ∧ (run session [Event.listClick groceries false, Event.taskUpdate "add",
            Event.resolve 2 (okTasks [milk, eggs]), Event.resolve 1 (okTasks [milk])]).allTasks
        ≠ Body.tasks [milk, eggs] := by
  decide

/-- C2 (amended): take any event that sends a task fetch A for list X, later
any event that sends a second task fetch B for X, then an ok response to B and
after it an ok response to A, both carrying task arrays, with any other events
in between that settle neither A nor (before its response) B.  Then `allTasks`
is the array of B right after the response to B and the array of A right after
the response to A: the response that arrives last is the one rendered. -/
theorem late_result_overwrites (s : Client) (first second : Event) (A B : Nat)
    (tokenA tokenB : Option String) (X : Nat) (es fs gs : List Event)
    (ra rb : Response) (ta tb : List Task)
    (hwf : WellFormed s) (hA : s.requests.length ≤ A)
    (hfirst : (step s first).requests[A]? = some (Request.getTasks tokenA (some X)))
    (hes : ∀ e ∈ es, settles e ≠ some A)
    (hB : (run s (first :: es)).requests.length ≤ B)
    (hsecond : (step (run s (first :: es)) second).requests[B]?
      = some (Request.getTasks tokenB (some X)))
    (hfs : ∀ e ∈ fs, settles e ≠ some A ∧ settles e ≠ some B)
    (hgs : ∀ e ∈ gs, settles e ≠ some A)
    (hra : ra.ok = true) (hta : ra.body = Body.tasks ta)
    (hrb : rb.ok = true) (htb : rb.body = Body.tasks tb) :
    (run s (first :: es ++ [second] ++ fs ++ [Event.resolve B rb])).allTasks = Body.tasks tb
      ∧ (run s (first :: es ++ [second] ++ fs ++ [Event.resolve B rb] ++ gs
            ++ [Event.resolve A ra])).allTasks = Body.tasks ta := by
  have wf1 : WellFormed (run s (first :: es)) := run_wellFormed _ _ hwf
  have hAB : A ≠ B := by
    have h1 := lt_length_of_getElem? _ _ _ hfirst
    have h2 : (step s first).requests.length ≤ (run s (first :: es)).requests.length :=
      run_requests_length es (step s first)
    omega
  have a0 : Awaits A Cont.fetchTasks (step s first) :=
    step_registers s first A tokenA (some X) hwf hA hfirst
  have a1 : Awaits A Cont.fetchTasks (run s (first :: es)) := run_awaits _ _ es _ a0 hes
  have hsecondA : settles second ≠ some A := by
    intro hset
    cases second with
    | resolve reqId r =>
      have hid : reqId = A := by simpa [settles] using hset
      subst hid
      have hk : (run s (first :: es)).pending.lookup reqId = some Cont.fetchTasks := a1
      have hreq : (step (run s (first :: es)) (Event.resolve reqId r)).requests
          = (run s (first :: es)).requests := by
        simp only [step, resolve, hk, resume]
        rw [(fetchTasks_resume_fields r _).2.1]
      rw [hreq] at hsecond
      exact no_new_request _ B _ hB hsecond
    | reject reqId => exact no_new_request _ B _ hB hsecond
    | listClick list onButton => simp [settles] at hset
    | connect => simp [settles] at hset
    | taskUpdate action => simp [settles] at hset
    | createList name => simp [settles] at hset
    | submitTask taskText => simp [settles] at hset
    | toggleTaskCompletion taskId completed => simp [settles] at hset
    | updateTask taskId taskData => simp [settles] at hset
    | deleteTask taskId => simp [settles] at hset
    | deleteList listId => simp [settles] at hset
    | dragEnd children => simp [settles] at hset
    | logout => simp [settles] at hset
  have a2 : Awaits A Cont.fetchTasks (step (run s (first :: es)) second) :=
    step_awaits _ _ _ _ a1 hsecondA
  have b2 : Awaits B Cont.fetchTasks (step (run s (first :: es)) second) :=
    step_registers _ second B tokenB (some X) wf1 hB hsecond
  have a3 : Awaits A Cont.fetchTasks (run (step (run s (first :: es)) second) fs) :=
    run_awaits _ _ fs _ a2 (fun e he => (hfs e he).1)
  have b3 : Awaits B Cont.fetchTasks (run (step (run s (first :: es)) second) fs) :=
    run_awaits _ _ fs _ b2 (fun e he => (hfs e he).2)
  have rB := resolve_fetchTasks_ok _ _ rb b3 hrb (by rw [htb]; simp)
  have a4 : Awaits A Cont.fetchTasks
      (step (run (step (run s (first :: es)) second) fs) (Event.resolve B rb)) :=
    step_awaits _ _ _ _ a3 (by simp [settles]; exact fun h => hAB h.symm)
  have a5 : Awaits A Cont.fetchTasks
      (run (step (run (step (run s (first :: es)) second) fs) (Event.resolve B rb)) gs) :=
    run_awaits _ _ gs _ a4 hgs
  have rA := resolve_fetchTasks_ok _ _ ra a5 hra (by rw [hta]; simp)
  have e1 : run s (first :: es ++ [second] ++ fs ++ [Event.resolve B rb])
      = step (run (step (run s (first :: es)) second) fs) (Event.resolve B rb) := by
    rw [run_append, run_append, run_append]; rfl
  have e2 : run s (first :: es ++ [second] ++ fs ++ [Event.resolve B rb] ++ gs
        ++ [Event.resolve A ra])
      = resolve A ra
          (run (step (run (step (run s (first :: es)) second) fs) (Event.resolve B rb)) gs) := by
    rw [run_append, run_append, e1]; rfl
  refine ⟨?_, ?_⟩
  · rw [e1]
    show (resolve B rb (run (step (run s (first :: es)) second) fs)).allTasks = _
    rw [rB.1, htb]
  · rw [e2, rA.1, hta]

/-- C2 (amended), on the sample page: A is the fetch sent by the click on
Groceries (request 1), B the fetch sent by a notification (request 2). -/
theorem late_result_overwrites_witness :
    WellFormed session
      ∧ (step session (Event.listClick groceries false)).requests[1]?
          = some (Request.getTasks (some "tok") (some 1))
      ∧ (step (run session (Event.listClick groceries false :: []))
            (Event.taskUpdate "add")).requests[2]?
          = some (Request.getTasks (some "tok") (some 1))
      ∧ (run session (Event.listClick groceries false :: [] ++ [Event.taskUpdate "add"] ++ []
            ++ [Event.resolve 2 (okTasks [milk, eggs])] ++ []
            ++ [Event.resolve 1 (okTasks [milk])])).allTasks = Body.tasks [milk] :=
  ⟨run_wellFormed _ _ (boot_wellFormed _ _), by decide, by decide,
    (late_result_overwrites session (Event.listClick groceries false) (Event.taskUpdate "add")
      1 2 (some "tok") (some "tok") 1 [] [] [] (okTasks [milk]) (okTasks [milk, eggs])
      [milk] [milk, eggs] (run_wellFormed _ _ (boot_wellFormed _ _)) (by decide) (by decide)
      (by decide) (by decide) (by decide) (by decide) (by decide)
      rfl rfl rfl rfl).2⟩
/-! ## Change notifications (C3) -/

/-- C3, as stated, fails: two notifications delivered for the open list while
no fetch has resolved send two task fetches, not one. -/
theorem coalescing_counterexample :
    (run viewing [Event.taskUpdate "add", Event.taskUpdate "update"]).pending
        = [(2, Cont.fetchTasks), (3, Cont.fetchTasks)]
      ∧ taskFetchesSince viewing.requests.length
          (run viewing [Event.taskUpdate "add", Event.taskUpdate "update"]) ≠ 1 := by
  decide

/-- C3 (amended): for every sequence of N change notifications (action add,
update or delete) handled with no other event in between, the client sends
exactly N task fetches, one per notification, each for the selected list. -/
theorem notifications_fetch_each (s : Client) (actions : List String)
    (h : ∀ a ∈ actions, a = "add" ∨ a = "update" ∨ a = "delete") :
    (run s (actions.map Event.taskUpdate)).requests
        = s.requests ++ List.replicate actions.length (Request.getTasks s.authToken s.currentListId)
      ∧ taskFetchesSince s.requests.length (run s (actions.map Event.taskUpdate))
        = actions.length := by
  have key : ∀ (actions : List String) (s : Client),
      (∀ a ∈ actions, a = "add" ∨ a = "update" ∨ a = "delete") →
      (run s (actions.map Event.taskUpdate)).requests
        = s.requests ++ List.replicate actions.length
            (Request.getTasks s.authToken s.currentListId) := by
    intro actions
    induction actions with
    | nil => intro s _; simp [run]
    | cons a as ih =>
      intro s h
      have ha : isChangeAction a = true := by
        rcases h a (List.mem_cons_self _ _) with ha | ha | ha <;> subst ha <;> decide
      have ih1 := ih (step s (Event.taskUpdate a)) (fun b hb => h b (List.mem_cons_of_mem _ hb))
      simp only [run, List.map_cons, List.foldl_cons] at ih1 ⊢
      rw [ih1, step_taskUpdate s a ha]
      simp [issue, List.replicate_succ]
  refine ⟨key actions s h, ?_⟩
  simp [taskFetchesSince, key actions s h, isTaskFetch]

/-- C3 (amended), for two notifications on the sample page. -/
theorem notifications_fetch_each_witness :
    (∀ a ∈ ["add", "delete"], a = "add" ∨ a = "update" ∨ a = "delete")
      ∧ taskFetchesSince viewing.requests.length
          (run viewing (["add", "delete"].map Event.taskUpdate)) = 2 :=
  ⟨by decide, (notifications_fetch_each viewing ["add", "delete"] (by decide)).2⟩

/-! ## Subscriptions (C4, C5) -/

/-- C4 fails on the code: Groceries is opened, the Work list is deleted
(`deleteList` resets `currentListId` without emitting `leave_list`), the lists
are fetched again and Chores is opened; the client is then subscribed to both
Groceries and Chores. -/
theorem deleteList_keeps_subscription :
    (run session [Event.listClick groceries false, Event.deleteList 2,
        Event.resolve 2 { status := 200, body := Body.empty },
        Event.resolve 3 { status := 200, body := Body.lists [groceries, chores] },
        Event.listClick chores false]).emitted
        = [Emit.join_list 1, Emit.join_list 3]
      ∧ activeSubscriptions
          (run session [Event.listClick groceries false, Event.deleteList 2,
            Event.resolve 2 { status := 200, body := Body.empty },
            Event.resolve 3 { status := 200, body := Body.lists [groceries, chores] },
            Event.listClick chores false]).emitted
        = [1, 3] := by
  decide

/-- C5, as stated, fails: the second of two clicks on Groceries emits again. -/
theorem reselect_counterexample :
    (run session [Event.listClick groceries false, Event.listClick groceries false]).emitted
      ≠ (run session [Event.listClick groceries false]).emitted := by
  decide

/-- C5 (amended): with a socket present and a non-zero list id, the second of
two clicks in a row on list X emits exactly `leave_list X` followed by
`join_list X`, and sends exactly one more task fetch for X. -/
theorem reselect_emits_leave_join (s : Client) (list : TodoList)
    (hs : s.socket = true) (hid : list.id ≠ 0) :
    (listClick list false (listClick list false s)).emitted
        = (listClick list false s).emitted ++ [Emit.leave_list list.id, Emit.join_list list.id]
      ∧ (listClick list false (listClick list false s)).requests
        = (listClick list false s).requests ++ [Request.getTasks s.authToken (some list.id)] := by
  refine ⟨?_, ?_⟩
  · cases hc : s.currentListId with
    | none => simp [listClick, emit, fetchTasks, issue, truthyId, hs, hid, hc]
    | some v =>
      by_cases hv : v = 0
      · simp [listClick, emit, fetchTasks, issue, truthyId, hs, hid, hc, hv]
      · simp [listClick, emit, fetchTasks, issue, truthyId, hs, hid, hc, hv]
  · rw [listClick_requests list (listClick list false s) (listClick_fields list s hs).1,
      (listClick_fields list s hs).2]

/-- C5 (amended), for the Groceries list on the sample page. -/
theorem reselect_emits_leave_join_witness :
    session.socket = true ∧ groceries.id ≠ 0
      ∧ (listClick groceries false (listClick groceries false session)).emitted
        = (listClick groceries false session).emitted
            ++ [Emit.leave_list groceries.id, Emit.join_list groceries.id]
      ∧ (listClick groceries false (listClick groceries false session)).requests
        = (listClick groceries false session).requests
            ++ [Request.getTasks session.authToken (some groceries.id)] :=
  ⟨rfl, by decide, reselect_emits_leave_join session groceries rfl (by decide)⟩

/-! ## Task fetch responses (C6, C7) -/

/-- C6: for every state and every response delivered to a waiting task fetch,
a response that is not ok leaves `allTasks` as it was, an ok response carrying
a task array makes `allTasks` exactly that array, and in every case `allTasks`
is either the old value or the whole body of the response, never a mix. -/
theorem fetchTasks_all_or_nothing (s : Client) (reqId : Nat) (response : Response)
    (h : s.pending.lookup reqId = some Cont.fetchTasks) :
    (response.ok = false → (resolve reqId response s).allTasks = s.allTasks)
      ∧ (∀ ts, response.ok = true → response.body = Body.tasks ts →
          (resolve reqId response s).allTasks = Body.tasks ts)
      ∧ ((resolve reqId response s).allTasks = s.allTasks
          ∨ (resolve reqId response s).allTasks = response.body) := by
  refine ⟨?_, ?_, ?_⟩
  · intro hok
    exact resolve_fetchTasks_failed s reqId response h (Or.inl hok)
  · intro ts hok hb
    rw [(resolve_fetchTasks_ok s reqId response h hok (by rw [hb]; simp)).1, hb]
  · cases hok : response.ok with
    | false => exact Or.inl (resolve_fetchTasks_failed s reqId response h (Or.inl hok))
    | true =>
      by_cases hb : response.body = Body.empty
      · exact Or.inl (resolve_fetchTasks_failed s reqId response h (Or.inr hb))
      · exact Or.inr (resolve_fetchTasks_ok s reqId response h hok hb).1

/-- C6, for the task fetch issued by opening Groceries on the sample page. -/
theorem fetchTasks_all_or_nothing_witness :
    (step session (Event.listClick groceries false)).pending.lookup 1 = some Cont.fetchTasks
      ∧ (resolve 1 (okTasks [milk, eggs]) (step session (Event.listClick groceries false))).allTasks
        = Body.tasks [milk, eggs] :=
  ⟨by decide,
    (fetchTasks_all_or_nothing (step session (Event.listClick groceries false)) 1
      (okTasks [milk, eggs]) (by decide)).2.1 [milk, eggs] rfl rfl⟩

/-- C7 fails on the code: a 401 response to the task fetch of Groceries leaves
the credentials and the view as they were, whereas the same response to the
list fetch (request 0 of the loaded page) logs the user out. -/
theorem fetchTasks_unauthorized_keeps_session :
    (run session [Event.listClick groceries false,
        Event.resolve 1 { status := 401, body := Body.empty }]).authToken = some "tok"
      ∧ (run session [Event.listClick groceries false,
          Event.resolve 1 { status := 401, body := Body.empty }]).currentUsername = some "ann"
      ∧ (run session [Event.listClick groceries false,
          Event.resolve 1 { status := 401, body := Body.empty }]).view = View.appView
      ∧ (run (boot (some "tok") (some "ann"))
          [Event.resolve 0 { status := 401, body := Body.empty }]).authToken = none
      ∧ (run (boot (some "tok") (some "ann"))
          [Event.resolve 0 { status := 401, body := Body.empty }]).view = View.authView := by
  decide

/-! ## Local mutations (C8, C9) -/

/-- C8 fails on the code: with Groceries open, completing task 10, deleting
task 10 and adding a task are acknowledged without any task fetch being sent,
whereas an acknowledged `updateTask` sends one for the selected list. -/
theorem mutations_without_refetch :
    (run viewing [Event.toggleTaskCompletion 10 true,
        Event.resolve 2 { status := 200, body := Body.empty }]).requests
        = viewing.requests ++ [Request.putTask (some "tok") 10 (TaskData.completedOnly true)]
      ∧ (run viewing [Event.toggleTaskCompletion 10 true,
          Event.resolve 2 { status := 200, body := Body.empty }]).pending = []
      ∧ (run viewing [Event.deleteTask 10,
          Event.resolve 2 { status := 200, body := Body.empty }]).requests
        = viewing.requests ++ [Request.deleteTask (some "tok") 10]
      ∧ (run viewing [Event.submitTask "Bread",
          Event.resolve 2 { status := 200,
                            body := Body.taskData (TaskData.fields "Bread" "Low" none) },
          Event.resolve 3 { status := 201, body := Body.empty }]).requests
        = viewing.requests ++ [Request.parseTask (some "tok") "Bread",
            Request.postTask (some "tok") (some 1)
              (Body.taskData (TaskData.fields "Bread" "Low" none))]
      ∧ (run viewing [Event.updateTask 10 (TaskData.fields "Oat milk" "Low" none),
          Event.resolve 2 { status := 200, body := Body.empty }]).requests
        = viewing.requests ++
            [Request.putTask (some "tok") 10 (TaskData.fields "Oat milk" "Low" none),
             Request.getTasks (some "tok") (some 1)] := by
  decide

/-- C9: for every displayed sequence of task elements and every selection, the
drag-end handler sends exactly two requests, first `PUT /tasks/reorder` whose
body has `list_id` equal to the selected list and `task_ids` equal to the
`data-id` values in displayed order (same length, position i holding the id of
the i-th element), then the task fetch for the selected list. -/
theorem sortableOnEnd_requests (s : Client) (children : List TaskElement) :
    (sortableOnEnd children s).requests
        = s.requests ++
          [Request.putReorder s.authToken s.currentListId (children.map TaskElement.dataset_id),
           Request.getTasks s.authToken s.currentListId]
      ∧ (children.map TaskElement.dataset_id).length = children.length
      ∧ ∀ i : Nat, (children.map TaskElement.dataset_id)[i]?
          = (children[i]?).map TaskElement.dataset_id := by
  refine ⟨?_, by simp, fun i => by simp⟩
  simp [sortableOnEnd, fetchTasks, issue, newOrder_ids]

/-! ## `updateDashboard` (C10) -/

/-- C10: for every client whose `allTasks` is a task sequence, the three chart
values computed by `updateDashboard` for the labels High, Medium, Low are the
numbers of tasks in `allTasks` whose priority is exactly that label; when every
priority is one of the three labels, these numbers add up to the number of
tasks. -/
theorem updateDashboard_counts (s : Client) (tasks : List Task)
    (h : s.allTasks = Body.tasks tasks) :
    (updateDashboard s).myChart
        = some [JsVal.num (countPriority "High" tasks),
                JsVal.num (countPriority "Medium" tasks),
                JsVal.num (countPriority "Low" tasks)]
      ∧ ((∀ t ∈ tasks, t.priority = "High" ∨ t.priority = "Medium" ∨ t.priority = "Low") →
          countPriority "High" tasks + countPriority "Medium" tasks
            + countPriority "Low" tasks = tasks.length) := by
  refine ⟨?_, countPriority_sum tasks⟩
  simp only [updateDashboard, h, chartData]
  rw [orZero_objGet_priorityCounts _ "High" (by decide),
    orZero_objGet_priorityCounts _ "Medium" (by decide),
    orZero_objGet_priorityCounts _ "Low" (by decide)]

/-- C10, at the two sample tasks: one Medium, one High, two tasks in all. -/
theorem updateDashboard_counts_witness :
    (renderTasks (Body.tasks [milk, eggs]) session).allTasks = Body.tasks [milk, eggs]
      ∧ (∀ t ∈ [milk, eggs],
        t.priority = "High" ∨ t.priority = "Medium" ∨ t.priority = "Low")
      ∧ (updateDashboard (renderTasks (Body.tasks [milk, eggs]) session)).myChart
        = some [JsVal.num 1, JsVal.num 1, JsVal.num 0]
      ∧ countPriority "High" [milk, eggs] + countPriority "Medium" [milk, eggs]
          + countPriority "Low" [milk, eggs] = 2 :=
  ⟨rfl, by decide,
    (updateDashboard_counts (renderTasks (Body.tasks [milk, eggs]) session) [milk, eggs] rfl).1,
    (updateDashboard_counts (renderTasks (Body.tasks [milk, eggs]) session) [milk, eggs] rfl).2
      (by decide)⟩

end TodoClient
